import Mathlib

/-!
Verification development for the Transform_frames repository.

Part 1 embeds `libuwb_transform` (FloorplanTransformer.cpp): the 3x3
homogeneous transform built from the five scalar parameters, its cached
inverse, and the forward/backward coordinate maps.  Doubles are modelled
as real numbers, so the floating-point round-trip law becomes an exact
identity over `ℝ`.

Part 2 embeds the `uwb_bridge_cpp` message pipeline (BridgeCore.cpp and
ConfigLoader.cpp) over a computable JSON model with `ℚ` numbers:
normalization (`parseMessage`), in-place rewriting
(`processAndModifyMessage`, `processAndModifyMessageArray`), the
ingestion path (`onMessageReceived`), the detached publish task, the
statistics snapshot (`getStats`) and startup validation
(`ConfigLoader::validate`).  A C++ function that can throw is modelled
with `Option`/`Except` (`none`/`error` = an exception was thrown).
-/

namespace uwb_transform

/-- Configuration for the floorplan transformer (FloorplanTransformer.hpp,
struct TransformConfig).  Doubles are modelled as reals. -/
structure TransformConfig where
  origin_x : ℝ
  origin_y : ℝ
  scale : ℝ
  rotation_rad : ℝ
  x_flipped : Bool
  y_flipped : Bool

/-- FloorplanTransformer::calculateTransformMatrix (FloorplanTransformer.cpp
lines 50-82).  T is the identity with `T(0,2) = -origin_x`,
`T(1,2) = -origin_y`; R is the rotation block for `theta = -rotation_rad`;
S is the identity with `S(0,0) = scale_x`, `S(1,1) = scale_y`; the result
is `S * R * T`. -/
noncomputable def calculateTransformMatrix (config : TransformConfig) :
    Matrix (Fin 3) (Fin 3) ℝ :=
  let T : Matrix (Fin 3) (Fin 3) ℝ := !![1, 0, -config.origin_x; 0, 1, -config.origin_y; 0, 0, 1]
  let theta : ℝ := -config.rotation_rad
  let c : ℝ := Real.cos theta
  let s : ℝ := Real.sin theta
  let R : Matrix (Fin 3) (Fin 3) ℝ := !![c, -s, 0; s, c, 0; 0, 0, 1]
  let scale_x : ℝ := config.scale * (if config.x_flipped then -1 else 1)
  let scale_y : ℝ := config.scale * (if config.y_flipped then -1 else 1)
  let S : Matrix (Fin 3) (Fin 3) ℝ := !![scale_x, 0, 0; 0, scale_y, 0; 0, 0, 1]
  S * R * T

/-- The transformer object: stored configuration, forward matrix and cached
inverse matrix (FloorplanTransformer.hpp lines 105-107). -/
structure FloorplanTransformer where
  config : TransformConfig
  transform_matrix : Matrix (Fin 3) (Fin 3) ℝ
  inverse_matrix : Matrix (Fin 3) (Fin 3) ℝ

/-- The constructor FloorplanTransformer::FloorplanTransformer
(FloorplanTransformer.cpp lines 11-15): stores the config, computes the
forward matrix, and caches `transform_matrix_.inverse()` (Eigen's exact
inverse, modelled by Mathlib's matrix inverse). -/
noncomputable def FloorplanTransformer.make (config : TransformConfig) : FloorplanTransformer :=
  let m := calculateTransformMatrix config
  ⟨config, m, m⁻¹⟩

/-- The C++ constructor body contains no validation and no throw statement
for any parameter value, so construction is modelled as always succeeding
(`Except` result is always `ok`). -/
noncomputable def FloorplanTransformer.construct (config : TransformConfig) :
    Except String FloorplanTransformer :=
  Except.ok (FloorplanTransformer.make config)

/-- FloorplanTransformer::transformToPixel (FloorplanTransformer.cpp lines
84-97): apply the forward matrix to the homogeneous point `(x, y, 1)`,
then divide each of the first two components by `scale` and by 1000. -/
noncomputable def transformToPixel (t : FloorplanTransformer) (uwb_x uwb_y : ℝ) : ℝ × ℝ :=
  let pixel_point := t.transform_matrix.mulVec ![uwb_x, uwb_y, 1]
  ((pixel_point 0 / t.config.scale) / 1000, (pixel_point 1 / t.config.scale) / 1000)

/-- FloorplanTransformer::transformToUWB (FloorplanTransformer.cpp lines
99-113): multiply each input component by 1000 and by `scale`, then apply
the cached inverse matrix to the homogeneous point. -/
noncomputable def transformToUWB (t : FloorplanTransformer) (meter_x meter_y : ℝ) : ℝ × ℝ :=
  let pixel_x := meter_x * 1000 * t.config.scale
  let pixel_y := meter_y * 1000 * t.config.scale
  let uwb_point := t.inverse_matrix.mulVec ![pixel_x, pixel_y, 1]
  (uwb_point 0, uwb_point 1)

/-- Spec-side: a pure translation matrix. -/
noncomputable def translateM (tx ty : ℝ) : Matrix (Fin 3) (Fin 3) ℝ :=
  !![1, 0, tx; 0, 1, ty; 0, 0, 1]

/-- Spec-side: a pure rotation matrix for angle `θ`. -/
noncomputable def rotateM (θ : ℝ) : Matrix (Fin 3) (Fin 3) ℝ :=
  !![Real.cos θ, -Real.sin θ, 0; Real.sin θ, Real.cos θ, 0; 0, 0, 1]

/-- Spec-side: a diagonal scale matrix `diag(sx, sy, 1)`. -/
noncomputable def scaleM (sx sy : ℝ) : Matrix (Fin 3) (Fin 3) ℝ :=
  !![sx, 0, 0; 0, sy, 0; 0, 0, 1]

/-- Spec-side: the sign factor for an axis flip flag. -/
def flipSign (b : Bool) : ℝ := if b then -1 else 1

end uwb_transform

namespace uwb_bridge

/-- JSON documents as handled by nlohmann::json in BridgeCore.cpp; numbers
are modelled as rationals. -/
inductive Json where
  | null : Json
  | bool (b : Bool) : Json
  | num (q : ℚ) : Json
  | str (s : String) : Json
  | arr (elems : List Json) : Json
  | obj (fields : List (String × Json)) : Json

/-- Key lookup in an object's field list (first matching key). -/
def lookupField : List (String × Json) → String → Option Json
  | [], _ => none
  | (k, v) :: rest, key => if k = key then some v else lookupField rest key

/-- Replace the value at a key, keeping its position; append if absent.
Models assignment through nlohmann's `operator[]`. -/
def setField : List (String × Json) → String → Json → List (String × Json)
  | [], key, v => [(key, v)]
  | (k, w) :: rest, key, v =>
    if k = key then (key, v) :: rest else (k, w) :: setField rest key v

/-- Remove the entry at a key (first occurrence).  Models `erase`. -/
def eraseField : List (String × Json) → String → List (String × Json)
  | [], _ => []
  | (k, w) :: rest, key => if k = key then rest else (k, w) :: eraseField rest key

/-- `j.find`/`j[key]` read access: `some` only on objects that have the key. -/
def Json.find : Json → String → Option Json
  | Json.obj fields, key => lookupField fields key
  | _, _ => none

/-- nlohmann `contains(key)`: false on non-objects. -/
def Json.contains (j : Json) (key : String) : Bool := (j.find key).isSome

/-- nlohmann `is_object()`. -/
def Json.isObject : Json → Bool
  | Json.obj _ => true
  | _ => false

/-- nlohmann `is_array()`. -/
def Json.isArray : Json → Bool
  | Json.arr _ => true
  | _ => false

/-- nlohmann `empty()` restricted to arrays (the only use in BridgeCore). -/
def Json.isEmptyArr : Json → Bool
  | Json.arr [] => true
  | _ => false

/-- `get<double>()`: succeeds only on numbers (anything else throws,
modelled as `none`). -/
def Json.getNum : Json → Option ℚ
  | Json.num q => some q
  | _ => none

/-- `get<std::string>()`: succeeds only on strings. -/
def Json.getStr : Json → Option String
  | Json.str s => some s
  | _ => none

/-- `get<bool>()`: succeeds only on booleans. -/
def Json.getBool : Json → Option Bool
  | Json.bool b => some b
  | _ => none

/-- `j[key].get<double>()`: a missing key gives null via `operator[]`, and
`get<double>` then throws (`none`). -/
def getNumField (j : Json) (key : String) : Option ℚ := (j.find key).bind Json.getNum

/-- `j.value(key, default)` for numbers: the default when the key is
absent, otherwise `get<double>` (which may throw). -/
def valueNum (j : Json) (key : String) (dflt : ℚ) : Option ℚ :=
  match j.find key with
  | none => some dflt
  | some v => v.getNum

/-- `j.value(key, default)` for booleans. -/
def valueBool (j : Json) (key : String) (dflt : Bool) : Option Bool :=
  match j.find key with
  | none => some dflt
  | some v => v.getBool

/-- `j.value(key, default)` for strings. -/
def valueStr (j : Json) (key : String) (dflt : String) : Option String :=
  match j.find key with
  | none => some dflt
  | some v => v.getStr

/-- The key's value when it is present and an object, as in the combined
checks `j.contains(k) && j[k].is_object()`. -/
def Json.findObj (j : Json) (key : String) : Option Json :=
  match j.find key with
  | some v => if v.isObject then some v else none
  | none => none

/-- Bridge-side transform configuration (ConfigLoader.hpp struct
TransformConfig).  The scalar parameters used by the pipeline are
rationals; the rotation (used only by the numeric engine of Part 1) is a
real so the degree-to-radian conversion with pi stays exact. -/
structure TransformConfig where
  origin_x : ℚ
  origin_y : ℚ
  scale : ℚ
  rotation_rad : ℝ
  x_flipped : Bool
  y_flipped : Bool
  frame_id : String
  output_units : String

/-- MQTT broker configuration (ConfigLoader.hpp struct MqttConfig); the
field `dest_topic_pfx` renders the source's destination topic prefix. -/
structure MqttConfig where
  broker_address : String
  client_id : String
  username : String
  password : String
  source_topic : String
  dest_topic_pfx : String
  qos : Int
  keepalive_interval : Int
  clean_session : Bool
  use_ssl : Bool

/-- Dual-broker configuration (ConfigLoader.hpp struct DualMqttConfig). -/
structure DualMqttConfig where
  source_broker : MqttConfig
  dest_broker : MqttConfig
  dual_mode : Bool

/-- Application configuration (ConfigLoader.hpp struct AppConfig). -/
structure AppConfig where
  mqtt : DualMqttConfig
  transform : TransformConfig
  log_level : String
  log_file : String
  log_rotation_size_mb : Int
  log_rotation_count : Int

/-- The log levels accepted by ConfigLoader::validate. -/
def validLogLevels : List String :=
  ["trace", "debug", "info", "warn", "error", "critical", "off"]

/-- ConfigLoader::validate (ConfigLoader.cpp lines 186-225): the chain of
checks in source order; a thrown `std::invalid_argument` is modelled as
`Except.error` with the source's message. -/
def validate (config : AppConfig) : Except String Bool :=
  if config.mqtt.source_broker.broker_address = "" then
    Except.error ("Source MQTT broker address cannot be empty")
  else if config.mqtt.source_broker.source_topic = "" then
    Except.error ("MQTT source topic cannot be empty")
  else if config.mqtt.source_broker.qos < 0 ∨ config.mqtt.source_broker.qos > 2 then
    Except.error ("MQTT QoS must be 0, 1, or 2")
  else if config.mqtt.source_broker.keepalive_interval < 1 then
    Except.error ("MQTT keepalive interval must be positive")
  else if config.mqtt.dual_mode ∧ config.mqtt.dest_broker.broker_address = "" then
    Except.error ("Destination MQTT broker address cannot be empty")
  else if config.transform.scale = 0 then
    Except.error ("Transform scale cannot be zero")
  else if ¬ (validLogLevels.contains config.log_level) then
    Except.error ("Invalid log level")
  else
    Except.ok true

/-- Truncation toward zero, as C++ `static_cast<int>` on a double. -/
def ratTruncToInt (q : ℚ) : Int := if q < 0 then q.ceil else q.floor

/-- ConfigLoader::parseTransformConfig (ConfigLoader.cpp lines 142-184):
missing `origin_x`/`origin_y`/`scale` throws; rotation comes from
`rotation_rad` (radians) or `rotation` (degrees, converted with pi) or
defaults to 0; flips come from `x_flip`/`y_flip` (int, negative means
flipped) or `x_flipped`/`y_flipped` (bool, default false); `frame_id` and
`output_units` default.  A thrown exception is `Except.error`. -/
noncomputable def parseTransformConfig (j : Json) : Except String TransformConfig :=
  if ¬ (j.contains "origin_x" ∧ j.contains "origin_y" ∧ j.contains "scale") then
    Except.error ("Missing required transformation parameters")
  else
    match getNumField j "origin_x", getNumField j "origin_y", getNumField j "scale" with
    | some ox, some oy, some sc =>
      let rotation :
          Except String ℝ :=
        if j.contains "rotation_rad" then
          match getNumField j "rotation_rad" with
          | some r => Except.ok (r : ℝ)
          | none => Except.error ("type error")
        else if j.contains "rotation" then
          match getNumField j "rotation" with
          | some d => Except.ok ((d : ℝ) * Real.pi / 180)
          | none => Except.error ("type error")
        else
          Except.ok 0
      let xf : Except String Bool :=
        if j.contains "x_flip" then
          match getNumField j "x_flip" with
          | some q => Except.ok (decide (ratTruncToInt q < 0))
          | none => Except.error ("type error")
        else
          match valueBool j "x_flipped" false with
          | some b => Except.ok b
          | none => Except.error ("type error")
      let yf : Except String Bool :=
        if j.contains "y_flip" then
          match getNumField j "y_flip" with
          | some q => Except.ok (decide (ratTruncToInt q < 0))
          | none => Except.error ("type error")
        else
          match valueBool j "y_flipped" false with
          | some b => Except.ok b
          | none => Except.error ("type error")
      match rotation, xf, yf,
          valueStr j "frame_id" "floorplan_pixel_frame", valueStr j "output_units" "meters" with
      | Except.ok r, Except.ok fx, Except.ok fy, some fid, some units =>
        Except.ok ⟨ox, oy, sc, r, fx, fy, fid, units⟩
      | _, _, _, _, _ => Except.error ("type error")
    | _, _, _ => Except.error ("type error")

/-- A normalized single-tag record: coordinates plus the tag id (empty
string when no id field was present). -/
structure ParsedTag where
  x : ℚ
  y : ℚ
  z : ℚ
  tag_id : String
deriving DecidableEq

/-- The coordinate-extraction part of BridgeCore::parseMessage
(BridgeCore.cpp lines 342-377): the chain of shape probes in source
order.  A shape whose containment checks pass but whose `x`/`y` access or
`z` conversion throws makes the whole parse fail (`none`), exactly as the
C++ exception handler returns false. -/
def parseCoordinates (j : Json) : Option (ℚ × ℚ × ℚ) :=
  match (j.findObj "data").bind (fun d => d.findObj "coordinates") with
  | some coords => do
    let x ← getNumField coords "x"
    let y ← getNumField coords "y"
    let z ← valueNum coords "z" 0
    pure (x, y, z)
  | none =>
    match j.findObj "coordinates" with
    | some coords => do
      let x ← getNumField coords "x"
      let y ← getNumField coords "y"
      let z ← valueNum coords "z" 0
      pure (x, y, z)
    | none =>
      if j.contains "x" ∧ j.contains "y" then do
        let x ← getNumField j "x"
        let y ← getNumField j "y"
        let z ← valueNum j "z" 0
        pure (x, y, z)
      else if j.contains "posX" ∧ j.contains "posY" then do
        let x ← getNumField j "posX"
        let y ← getNumField j "posY"
        let z ← valueNum j "posZ" 0
        pure (x, y, z)
      else if j.contains "position" then
        match j.find "position" with
        | some pos => do
          let x ← getNumField pos "x"
          let y ← getNumField pos "y"
          let z ← valueNum pos "z" 0
          pure (x, y, z)
        | none => none
      else
        none

/-- The tag-id part of BridgeCore::parseMessage (lines 379-391): probe
`tagId`, `tag_id`, `id`, then nested `tagData.tagId`; a present field
whose `get<std::string>` throws fails the whole parse; no field at all
leaves the id empty. -/
def parseTagId (j : Json) : Option String :=
  match j.find "tagId" with
  | some v => v.getStr
  | none =>
    match j.find "tag_id" with
    | some v => v.getStr
    | none =>
      match j.find "id" with
      | some v => v.getStr
      | none =>
        match (j.findObj "tagData").bind (fun td => td.find "tagId") with
        | some v => v.getStr
        | none => some ""

/-- BridgeCore::parseMessage (BridgeCore.cpp lines 333-399) on an already
parsed document: extract coordinates, then the tag id. -/
def parseMessage (j : Json) : Option ParsedTag := do
  let c ← parseCoordinates j
  let tid ← parseTagId j
  pure ⟨c.1, c.2.1, c.2.2, tid⟩

/-- Spec-side: extract `{kx, ky, kz}` from a coordinate group, `kz`
defaulting to 0 when absent. -/
def extractXYZ (c : Json) (kx ky kz : String) : Option (ℚ × ℚ × ℚ) := do
  let x ← getNumField c kx
  let y ← getNumField c ky
  let z ← valueNum c kz 0
  pure (x, y, z)

/-- Spec-side shape matcher: nested `data.coordinates.{x,y,z}`.  `none`
means the shape is not recognized; `some r` means the shape is recognized
with extraction result `r`. -/
def matchDataCoordinates (j : Json) : Option (Option (ℚ × ℚ × ℚ)) :=
  ((j.findObj "data").bind (fun d => d.findObj "coordinates")).map
    (fun c => extractXYZ c "x" "y" "z")

/-- Spec-side shape matcher: nested `coordinates.{x,y,z}`. -/
def matchCoordinates (j : Json) : Option (Option (ℚ × ℚ × ℚ)) :=
  (j.findObj "coordinates").map (fun c => extractXYZ c "x" "y" "z")

/-- Spec-side shape matcher: flat `{x,y,z}`. -/
def matchFlatXYZ (j : Json) : Option (Option (ℚ × ℚ × ℚ)) :=
  if j.contains "x" ∧ j.contains "y" then some (extractXYZ j "x" "y" "z") else none

/-- Spec-side shape matcher: flat `{posX,posY,posZ}`. -/
def matchFlatPos (j : Json) : Option (Option (ℚ × ℚ × ℚ)) :=
  if j.contains "posX" ∧ j.contains "posY" then some (extractXYZ j "posX" "posY" "posZ")
  else none

/-- Spec-side shape matcher: nested `position.{x,y,z}`. -/
def matchPosition (j : Json) : Option (Option (ℚ × ℚ × ℚ)) :=
  (j.find "position").map (fun p => extractXYZ p "x" "y" "z")

/-- Spec-side: run an ordered list of shape matchers; the first matcher
that recognizes the shape wins (its extraction result, successful or
not, is final). -/
def firstShape : List (Json → Option (Option (ℚ × ℚ × ℚ))) → Json → Option (ℚ × ℚ × ℚ)
  | [], _ => none
  | m :: ms, j =>
    match m j with
    | some r => r
    | none => firstShape ms j

/-- Spec-side: the fixed priority order of the five recognized schema
shapes. -/
def shapeMatchers : List (Json → Option (Option (ℚ × ℚ × ℚ))) :=
  [matchDataCoordinates, matchCoordinates, matchFlatXYZ, matchFlatPos, matchPosition]

/-- Spec-side normalization: probe the shapes in the fixed priority
order. -/
def normalizeCoordinates (j : Json) : Option (ℚ × ℚ × ℚ) := firstShape shapeMatchers j

/-- BridgeCore::extractTagIdFromTopic (BridgeCore.cpp lines 552-559):
the part after the last slash, or "unknown" when there is no slash or the
topic ends with one. -/
def extractTagIdFromTopic (topic : String) : String :=
  let parts := topic.splitOn ("/")
  match parts with
  | [] => "unknown"
  | [_] => "unknown"
  | _ =>
    let last := parts.getLastD ""
    if last = "" then "unknown" else last

/-- The Z unit conversion (BridgeCore.cpp lines 267-274 and 468-474):
divide by 1000 for meters, multiply by `scale` for pixels, otherwise keep
millimeters. -/
def transformZ (tcfg : TransformConfig) (z : ℚ) : ℚ :=
  if tcfg.output_units = "meters" then z / 1000
  else if tcfg.output_units = "pixels" then z * tcfg.scale
  else z

/-- BridgeCore::createOutputMessage (BridgeCore.cpp lines 416-429): the
minimal flat fallback document.  Units are hard-coded to "meters" there.
`timestamp` and `now` both come from getCurrentTimestampMs at the call
sites. -/
def createOutputMessage (tag_id : String) (meter_x meter_y uwb_z : ℚ)
    (timestamp now : ℕ) : Json :=
  Json.obj
    [("tag_id", Json.str tag_id), ("x", Json.num meter_x), ("y", Json.num meter_y),
      ("z", Json.num uwb_z), ("timestamp", Json.num timestamp),
      ("processing_timestamp", Json.num now), ("units", Json.str ("meters"))]

/-- The in-place rewrite of a nested coordinate group
(BridgeCore.cpp lines 517-525): set `x`, `y`, `z`, `frame_id`,
`processing_timestamp`, `units` on the coordinate object. -/
def rwCoords (tcfg : TransformConfig) (now : ℕ) (coordFields : List (String × Json))
    (tx ty tz : ℚ) : List (String × Json) :=
  setField
    (setField
      (setField
        (setField (setField (setField coordFields "x" (Json.num tx)) "y" (Json.num ty)) "z"
          (Json.num tz))
        "frame_id" (Json.str tcfg.frame_id))
      "processing_timestamp" (Json.num now))
    "units" (Json.str tcfg.output_units)

/-- The rewritten data object: updated coordinates, then `anchorData`
dropped when present (BridgeCore.cpp lines 527-530). -/
def rwData (tcfg : TransformConfig) (now : ℕ)
    (dataFields coordFields : List (String × Json)) (tx ty tz : ℚ) : List (String × Json) :=
  let newData := setField dataFields "coordinates" (Json.obj (rwCoords tcfg now coordFields tx ty tz))
  if (lookupField newData "anchorData").isSome then eraseField newData "anchorData"
  else newData

/-- The whole rewritten document. -/
def rewriteNestedCoords (tcfg : TransformConfig) (now : ℕ)
    (objFields dataFields coordFields : List (String × Json)) (tx ty tz : ℚ) : Json :=
  Json.obj
    (setField objFields "data" (Json.obj (rwData tcfg now dataFields coordFields tx ty tz)))

/-- The tag id used by the non-nested fallback branch of
processAndModifyMessage (BridgeCore.cpp lines 535-540): probe `tagId`
then `tag_id`; a throwing `get<std::string>` lands in the catch handler,
which also falls back to "unknown". -/
def fallbackTagId (j : Json) : String :=
  match j.find "tagId" with
  | some (Json.str s) => s
  | some _ => "unknown"
  | none =>
    match j.find "tag_id" with
    | some (Json.str s) => s
    | some _ => "unknown"
    | none => "unknown"

/-- BridgeCore::processAndModifyMessage (BridgeCore.cpp lines 505-549):
when the document has `data.coordinates` (null coordinates become an
object through `operator[]`), rewrite in place and strip `anchorData`;
when the coordinates value is of a type `operator[]` rejects, the thrown
exception reaches the catch handler, which emits the minimal fallback
with tag "unknown"; otherwise emit the minimal fallback with the probed
tag id. -/
def processAndModifyMessage (tcfg : TransformConfig) (now : ℕ) (payload : Json)
    (transformed_x transformed_y transformed_z : ℚ) : Json :=
  match payload with
  | Json.obj objFields =>
    match lookupField objFields "data" with
    | some (Json.obj dataFields) =>
      match lookupField dataFields "coordinates" with
      | some (Json.obj coordFields) =>
        rewriteNestedCoords tcfg now objFields dataFields coordFields transformed_x
          transformed_y transformed_z
      | some Json.null =>
        rewriteNestedCoords tcfg now objFields dataFields [] transformed_x transformed_y
          transformed_z
      | some _ =>
        createOutputMessage "unknown" transformed_x transformed_y transformed_z now now
      | none =>
        createOutputMessage (fallbackTagId payload) transformed_x transformed_y transformed_z
          now now
    | _ =>
      createOutputMessage (fallbackTagId payload) transformed_x transformed_y transformed_z
        now now
  | _ =>
    createOutputMessage (fallbackTagId payload) transformed_x transformed_y transformed_z now
      now

/-- Processing of one element of an array payload
(BridgeCore.cpp lines 441-495).  Only the nested `data.coordinates`
object shape is transformed; an element of any other shape is passed
through unchanged ("unexpected format, skipping").  An exception while
extracting `x`, `y`, `z` or `tagId` aborts the whole array call
(`none`).  The transform itself (`transformer_->transformToPixel` behind
`transformCoordinates`) is a total function here, so the
transform-failure `continue` branch is unreachable. -/
def processArrayElement (tf : ℚ → ℚ → ℚ × ℚ) (tcfg : TransformConfig) (now : ℕ)
    (tag_obj : Json) : Option Json :=
  match tag_obj with
  | Json.obj objFields =>
    match lookupField objFields "data" with
    | some (Json.obj dataFields) =>
      match lookupField dataFields "coordinates" with
      | some (Json.obj coordFields) => do
        let x ← getNumField (Json.obj coordFields) "x"
        let y ← getNumField (Json.obj coordFields) "y"
        let z ← valueNum (Json.obj coordFields) "z" 0
        let _tag_id ←
          match lookupField objFields "tagId" with
          | some v => v.getStr
          | none => some "unknown"
        let m := tf x y
        let tz := transformZ tcfg z
        pure (rewriteNestedCoords tcfg now objFields dataFields coordFields m.1 m.2 tz)
      | _ => some tag_obj
    | _ => some tag_obj
  | _ => some tag_obj

/-- BridgeCore::processAndModifyMessageArray (BridgeCore.cpp lines
431-503): non-array or empty input yields the failure sentinel (the empty
string, modelled as `none`); otherwise each element is processed in
document order, and any exception during element processing makes the
whole call yield the sentinel. -/
def processAndModifyMessageArray (tf : ℚ → ℚ → ℚ × ℚ) (tcfg : TransformConfig) (now : ℕ)
    (payload : Json) : Option Json :=
  match payload with
  | Json.arr [] => none
  | Json.arr elems => (elems.mapM (processArrayElement tf tcfg now)).map Json.arr
  | _ => none

/-- The atomic flag-and-counter state of BridgeCore (BridgeCore.hpp lines
152-163). -/
structure BridgeState where
  running : Bool
  shutdown_requested : Bool
  total_messages : ℕ
  successful_transforms : ℕ
  failed_transforms : ℕ
  malformed_messages : ℕ
  total_processing_time_us : ℕ
deriving DecidableEq

/-- A publish scheduled on a detached thread: target topic and the
serialized output document. -/
structure PublishTask where
  topic : String
  payload : Json

/-- BridgeCore::stop (BridgeCore.cpp lines 136-169): a no-op when not
running; otherwise the shutdown flag is raised first and the running flag
cleared (the grace-period sleep, statistics printing and disconnects do
not change this state). -/
def stop (s : BridgeState) : BridgeState :=
  if s.running then { s with shutdown_requested := true, running := false } else s

/-- The body of the detached publish thread (BridgeCore.cpp lines 220-234
and 303-325): check the shutdown flag before touching a sink; then one
publish call happens, bumping the successful or failed counter by its
outcome.  The returned task is the publish invocation (`none` = no
publish call occurred). -/
def runPublishTask (s : BridgeState) (publish_ok : Bool) (t : PublishTask) :
    BridgeState × Option PublishTask :=
  if s.shutdown_requested then (s, none)
  else if publish_ok then
    ({ s with successful_transforms := s.successful_transforms + 1 }, some t)
  else
    ({ s with failed_transforms := s.failed_transforms + 1 }, some t)

/-- BridgeCore::onMessageReceived (BridgeCore.cpp lines 171-331) on an
already parsed payload.  `tf` is the transformer's forward map (a total
function, so the guarded transform-failure branches are unreachable),
`now` the capture timestamp and `dt` the measured processing duration.
The returned task is the publish scheduled on a detached thread
(`none` = nothing scheduled). -/
def onMessageReceived (tf : ℚ → ℚ → ℚ × ℚ) (cfg : AppConfig) (now dt : ℕ)
    (s : BridgeState) (topic : String) (j : Json) : BridgeState × Option PublishTask :=
  if ¬ s.running ∨ s.shutdown_requested then (s, none)
  else
    let s1 := { s with total_messages := s.total_messages + 1 }
    if j.isArray ∧ ¬ j.isEmptyArr then
      match processAndModifyMessageArray tf cfg.transform now j with
      | none => ({ s1 with failed_transforms := s1.failed_transforms + 1 }, none)
      | some out =>
        ({ s1 with total_processing_time_us := s1.total_processing_time_us + dt },
          some ⟨cfg.mqtt.dest_broker.dest_topic_pfx ++ "tags", out⟩)
    else
      match parseMessage j with
      | none => ({ s1 with malformed_messages := s1.malformed_messages + 1 }, none)
      | some t =>
        let tag_id := if t.tag_id = "" then extractTagIdFromTopic topic else t.tag_id
        let m := tf t.x t.y
        let tz := transformZ cfg.transform t.z
        let out := processAndModifyMessage cfg.transform now j m.1 m.2 tz
        ({ s1 with total_processing_time_us := s1.total_processing_time_us + dt },
          some ⟨cfg.mqtt.dest_broker.dest_topic_pfx ++ tag_id, out⟩)

/-- The statistics snapshot value (BridgeCore.hpp struct BridgeStats);
the average is a rational. -/
structure BridgeStats where
  total_messages : ℕ
  successful_transforms : ℕ
  failed_transforms : ℕ
  malformed_messages : ℕ
  avg_processing_time_us : ℚ

/-- BridgeCore::getStats (BridgeCore.cpp lines 567-581): load the
counters, and compute the average processing time as cumulative time over
successful count, or 0.0 when the count is zero. -/
def getStats (s : BridgeState) : BridgeStats :=
  let total_time := s.total_processing_time_us
  let success_count := s.successful_transforms
  { total_messages := s.total_messages
    successful_transforms := s.successful_transforms
    failed_transforms := s.failed_transforms
    malformed_messages := s.malformed_messages
    avg_processing_time_us :=
      if success_count > 0 then (total_time : ℚ) / (success_count : ℚ) else 0 }

/-- The shape recognized by the array-processing loop: an object whose
`data` field is an object whose `coordinates` field is an object. -/
def hasDataCoordsObj : Json → Bool
  | Json.obj objFields =>
    match lookupField objFields "data" with
    | some (Json.obj dataFields) =>
      match lookupField dataFields "coordinates" with
      | some (Json.obj _) => true
      | _ => false
    | _ => false
  | _ => false

/-- Follow a path of keys through nested objects. -/
def findPath : Json → List String → Option Json
  | j, [] => some j
  | j, k :: ks => (j.find k).bind (fun v => findPath v ks)

/-- A concrete broker configuration used to instantiate theorems. -/
def sampleBroker : MqttConfig :=
  ⟨"tcp://localhost:1883", "uwb_bridge_cpp", "", "", "tags/#", "processed/", 1, 60, true, false⟩

/-- A concrete transform configuration used to instantiate theorems. -/
noncomputable def sampleTransformCfg : TransformConfig :=
  ⟨0, 0, 1, 0, false, false, "floorplan_pixel_frame", "meters"⟩

/-- A concrete application configuration used to instantiate theorems. -/
noncomputable def sampleAppConfig : AppConfig :=
  ⟨⟨sampleBroker, sampleBroker, false⟩, sampleTransformCfg, "info", "", 10, 3⟩

/-- The same application configuration with a negative transform scale. -/
noncomputable def negScaleAppConfig : AppConfig :=
  ⟨⟨sampleBroker, sampleBroker, false⟩,
    ⟨0, 0, -1, 0, false, false, "floorplan_pixel_frame", "meters"⟩, "info", "", 10, 3⟩

/-- A concrete plug for the transformer's forward map in theorem
instances. -/
def tfShift : ℚ → ℚ → ℚ × ℚ := fun x y => (x + 1, y + 1)

/-- A concrete transform plug that swaps the coordinates (applying it
needs no rational arithmetic, so instances evaluate by rfl). -/
def tfSwap : ℚ → ℚ → ℚ × ℚ := fun x y => (y, x)

/-- A concrete transform configuration with millimeter output (the Z
conversion is then the identity). -/
noncomputable def mmTransformCfg : TransformConfig :=
  ⟨0, 0, 1, 0, false, false, "floorplan_pixel_frame", "millimeters"⟩

/-- A concrete running bridge state with all counters at zero. -/
def s0 : BridgeState := ⟨true, false, 0, 0, 0, 0, 0⟩

/-- A concrete bridge state with 2 successful transforms and 10 cumulative
microseconds. -/
def sC9 : BridgeState := ⟨true, false, 3, 2, 0, 0, 10⟩

/-- The sample application configuration with transform scale zero. -/
noncomputable def zeroScaleAppConfig : AppConfig :=
  ⟨⟨sampleBroker, sampleBroker, false⟩,
    ⟨0, 0, 0, 0, false, false, "floorplan_pixel_frame", "meters"⟩, "info", "", 10, 3⟩

/-- A flat-shaped tag element (an accepted single-object shape). -/
def flatTagEl : Json :=
  Json.obj [("x", Json.num 1), ("y", Json.num 2), ("tagId", Json.str "A1")]

/-- A nested-shaped array element with coordinates (1, 2). -/
def arrEl1 : Json :=
  Json.obj
    [("tagId", Json.str "A1"),
      ("data", Json.obj [("coordinates", Json.obj [("x", Json.num 1), ("y", Json.num 2)])])]

/-- An array element with a `data` object missing the `coordinates` key. -/
def arrEl2 : Json :=
  Json.obj [("tagId", Json.str "A2"), ("data", Json.obj [("status", Json.bool true)])]

/-- A nested-shaped array element with coordinates (3, 4). -/
def arrEl3 : Json :=
  Json.obj
    [("tagId", Json.str "A3"),
      ("data", Json.obj [("coordinates", Json.obj [("x", Json.num 3), ("y", Json.num 4)])])]

/-- The expected rewrite of `arrEl1` under `tfSwap` at timestamp 5 with
the millimeter transform configuration. -/
def arrEl1t : Json :=
  Json.obj
    [("tagId", Json.str "A1"),
      ("data", Json.obj
        [("coordinates", Json.obj
          [("x", Json.num 2), ("y", Json.num 1), ("z", Json.num 0),
            ("frame_id", Json.str "floorplan_pixel_frame"),
            ("processing_timestamp", Json.num 5), ("units", Json.str "millimeters")])])]

/-- The expected rewrite of `arrEl3` under `tfSwap` at timestamp 5 with
the millimeter transform configuration. -/
def arrEl3t : Json :=
  Json.obj
    [("tagId", Json.str "A3"),
      ("data", Json.obj
        [("coordinates", Json.obj
          [("x", Json.num 4), ("y", Json.num 3), ("z", Json.num 0),
            ("frame_id", Json.str "floorplan_pixel_frame"),
            ("processing_timestamp", Json.num 5), ("units", Json.str "millimeters")])])]

/-- An array element whose `data.coordinates` object lacks the `x` key. -/
def badArrEl : Json :=
  Json.obj [("data", Json.obj [("coordinates", Json.obj [("y", Json.num 2)])])]

/-- A payload in the accepted `coordinates.{x,y}` shape carrying an extra
field. -/
def coordShapeEl : Json :=
  Json.obj
    [("coordinates", Json.obj [("x", Json.num 1), ("y", Json.num 2)]), ("extra", Json.num 7)]

/-- A concrete coordinate group (fields of a `coordinates` object). -/
def nestedCoordFields : List (String × Json) := [("x", Json.num 1)]

/-- A concrete `data` object carrying coordinates, anchor data and an
extra key. -/
def nestedDataFields : List (String × Json) :=
  [("coordinates", Json.obj nestedCoordFields), ("anchorData", Json.arr []),
    ("k", Json.num 9)]

/-- A concrete nested-shape payload (fields of the top-level object). -/
def nestedObjFields : List (String × Json) :=
  [("tagId", Json.str "A1"), ("data", Json.obj nestedDataFields)]

end uwb_bridge

namespace uwb_transform

lemma calculateTransformMatrix_eq (config : TransformConfig) :
    calculateTransformMatrix config =
      scaleM (config.scale * flipSign config.x_flipped) (config.scale * flipSign config.y_flipped) *
        rotateM (-config.rotation_rad) *
        translateM (-config.origin_x) (-config.origin_y) := by
  rfl

lemma det_translateM (tx ty : ℝ) : (translateM tx ty).det = 1 := by
  simp only [translateM, Matrix.det_fin_three, Matrix.cons_val', Matrix.cons_val_zero,
    Matrix.cons_val_one, Matrix.cons_val_two, Matrix.head_cons, Matrix.empty_val',
    Matrix.cons_val_fin_one, Matrix.head_fin_const, Matrix.of_apply, Matrix.tail_cons]
  ring

lemma det_rotateM (θ : ℝ) : (rotateM θ).det = 1 := by
  simp only [rotateM, Matrix.det_fin_three, Matrix.cons_val', Matrix.cons_val_zero,
    Matrix.cons_val_one, Matrix.cons_val_two, Matrix.head_cons, Matrix.empty_val',
    Matrix.cons_val_fin_one, Matrix.head_fin_const, Matrix.of_apply, Matrix.tail_cons]
  nlinarith [Real.sin_sq_add_cos_sq θ]

lemma det_scaleM (sx sy : ℝ) : (scaleM sx sy).det = sx * sy := by
  simp only [scaleM, Matrix.det_fin_three, Matrix.cons_val', Matrix.cons_val_zero,
    Matrix.cons_val_one, Matrix.cons_val_two, Matrix.head_cons, Matrix.empty_val',
    Matrix.cons_val_fin_one, Matrix.head_fin_const, Matrix.of_apply, Matrix.tail_cons]
  ring

lemma det_calculateTransformMatrix (config : TransformConfig) :
    (calculateTransformMatrix config).det =
      config.scale * flipSign config.x_flipped * (config.scale * flipSign config.y_flipped) := by
  rw [calculateTransformMatrix_eq, Matrix.det_mul, Matrix.det_mul, det_scaleM, det_rotateM,
    det_translateM]
  ring

lemma isUnit_det_calculateTransformMatrix (config : TransformConfig)
    (h : config.scale ≠ 0) : IsUnit (calculateTransformMatrix config).det := by
  rw [det_calculateTransformMatrix, isUnit_iff_ne_zero]
  cases hx : config.x_flipped <;> cases hy : config.y_flipped <;>
    simp [flipSign] <;> intro hc <;> exact h hc

lemma mulVec_translateM (tx ty x y : ℝ) :
    (translateM tx ty).mulVec ![x, y, 1] = ![x + tx, y + ty, 1] := by
  funext i
  fin_cases i <;>
    simp [translateM, Matrix.mulVec, Matrix.dotProduct, Fin.sum_univ_three,
      Matrix.cons_val_two, Matrix.tail_cons]

lemma mulVec_rotateM (θ x y : ℝ) :
    (rotateM θ).mulVec ![x, y, 1] =
      ![Real.cos θ * x - Real.sin θ * y, Real.sin θ * x + Real.cos θ * y, 1] := by
  funext i
  fin_cases i <;>
    simp [rotateM, Matrix.mulVec, Matrix.dotProduct, Fin.sum_univ_three,
      Matrix.cons_val_two, Matrix.tail_cons] <;> ring

lemma mulVec_scaleM (sx sy x y : ℝ) :
    (scaleM sx sy).mulVec ![x, y, 1] = ![sx * x, sy * y, 1] := by
  funext i
  fin_cases i <;>
    simp [scaleM, Matrix.mulVec, Matrix.dotProduct, Fin.sum_univ_three,
      Matrix.cons_val_two, Matrix.tail_cons]

/-- The forward matrix applied to a homogeneous point keeps the last
component equal to 1 and its first two components have closed forms. -/
lemma mulVec_calculateTransformMatrix (config : TransformConfig) (x y : ℝ) :
    (calculateTransformMatrix config).mulVec ![x, y, 1] =
      ![config.scale * flipSign config.x_flipped *
          (Real.cos (-config.rotation_rad) * (x + -config.origin_x) -
            Real.sin (-config.rotation_rad) * (y + -config.origin_y)),
        config.scale * flipSign config.y_flipped *
          (Real.sin (-config.rotation_rad) * (x + -config.origin_x) +
            Real.cos (-config.rotation_rad) * (y + -config.origin_y)),
        1] := by
  rw [calculateTransformMatrix_eq, ← Matrix.mulVec_mulVec, ← Matrix.mulVec_mulVec,
    mulVec_translateM, mulVec_rotateM, mulVec_scaleM]

/-- C1: for every TransformConfig with `scale ≠ 0` and every input point
`(x, y)`, `transformToUWB (transformToPixel (x, y))` equals `(x, y)`: the
forward map (cached matrix applied to `(x, y, 1)`, then divide by `scale`
and by 1000) composed with the inverse map (multiply by 1000 and `scale`,
then apply the cached inverse matrix) is the identity (exact over `ℝ`,
i.e. within floating-point tolerance in the C++ doubles). -/
theorem C1_round_trip (config : TransformConfig) (h : config.scale ≠ 0) (x y : ℝ) :
    transformToUWB (FloorplanTransformer.make config)
        (transformToPixel (FloorplanTransformer.make config) x y).1
        (transformToPixel (FloorplanTransformer.make config) x y).2 = (x, y) := by
  have hdet := isUnit_det_calculateTransformMatrix config h
  have hconv : ∀ a : ℝ, a / config.scale / 1000 * 1000 * config.scale = a := by
    intro a; field_simp; ring
  have hmv := mulVec_calculateTransformMatrix config x y
  simp only [transformToPixel, transformToUWB, FloorplanTransformer.make]
  rw [hconv, hconv, hmv]
  simp only [Matrix.cons_val_zero, Matrix.cons_val_one, Matrix.head_cons]
  rw [← hmv, Matrix.mulVec_mulVec, Matrix.nonsing_inv_mul _ hdet, Matrix.one_mulVec]
  simp

/-- Witness for C1 at the concrete configuration with scale 1, no rotation,
no flips, origin (0,0), and input point (2, 3). -/
theorem C1_round_trip_witness :
    (⟨0, 0, 1, 0, false, false⟩ : TransformConfig).scale ≠ 0 ∧
      transformToUWB (FloorplanTransformer.make ⟨0, 0, 1, 0, false, false⟩)
          (transformToPixel (FloorplanTransformer.make ⟨0, 0, 1, 0, false, false⟩) 2 3).1
          (transformToPixel (FloorplanTransformer.make ⟨0, 0, 1, 0, false, false⟩) 2 3).2 =
        (2, 3) :=
  ⟨by norm_num, C1_round_trip ⟨0, 0, 1, 0, false, false⟩ (by norm_num) 2 3⟩

/-- C2: the forward matrix is built from the five parameters exactly as
`M = S * R * T` with `T = translate(-origin_x, -origin_y)`, `R` the
rotation by `-rotation_rad`, and
`S = diag(scale * (x_flipped ? -1 : 1), scale * (y_flipped ? -1 : 1), 1)`;
the cached inverse equals `M⁻¹`, and both are computed together at
construction. -/
theorem C2_matrix_construction (config : TransformConfig) :
    (FloorplanTransformer.make config).transform_matrix =
        scaleM (config.scale * flipSign config.x_flipped)
            (config.scale * flipSign config.y_flipped) *
          rotateM (-config.rotation_rad) *
          translateM (-config.origin_x) (-config.origin_y) ∧
      (FloorplanTransformer.make config).inverse_matrix =
        (FloorplanTransformer.make config).transform_matrix⁻¹ :=
  ⟨calculateTransformMatrix_eq config, rfl⟩

end uwb_transform

namespace uwb_bridge

/-- C3, counterexample: the transformer constructor accepts `scale = 0`
without an error, and startup validation accepts a negative (non-positive)
scale; so neither "rejected at transform construction" nor "any
non-positive parameter is fatal at validation" holds as stated. -/
theorem C3_counterexample :
    (uwb_transform.FloorplanTransformer.construct ⟨0, 0, 0, 0, false, false⟩).isOk = true ∧
      (validate negScaleAppConfig).isOk = true := by
  exact ⟨rfl, by decide⟩

/-- C3, amended: transformer construction never rejects any configuration;
a configuration with `scale = 0` is rejected at startup configuration
validation (ConfigLoader::validate), and a transform section missing a
required parameter is rejected at configuration parse
(ConfigLoader::parseTransformConfig). -/
theorem C3_validation_behavior :
    (∀ cfg : uwb_transform.TransformConfig,
        (uwb_transform.FloorplanTransformer.construct cfg).isOk = true) ∧
      (∀ c : AppConfig, c.transform.scale = 0 → (validate c).isOk = false) ∧
      (∀ j : Json, ¬ (j.contains "origin_x" ∧ j.contains "origin_y" ∧ j.contains "scale") →
        (parseTransformConfig j).isOk = false) := by
  refine ⟨fun cfg => rfl, fun c h => ?_, fun j h => ?_⟩
  · unfold validate
    split_ifs <;> first | rfl | exact absurd h (by assumption)
  · unfold parseTransformConfig
    rw [if_pos h]
    rfl

/-- Witness for C3 at concrete configurations. -/
theorem C3_validation_behavior_witness :
    (uwb_transform.FloorplanTransformer.construct ⟨0, 0, 1, 0, false, false⟩).isOk = true ∧
      (validate zeroScaleAppConfig).isOk = false ∧
      (parseTransformConfig (Json.obj [])).isOk = false :=
  ⟨C3_validation_behavior.1 ⟨0, 0, 1, 0, false, false⟩,
    C3_validation_behavior.2.1 zeroScaleAppConfig rfl,
    C3_validation_behavior.2.2 (Json.obj []) (by decide)⟩

/-- C7, counterexample: an empty JSON array payload is not a no-op — it
falls through to single-object parsing, which fails, so the malformed
counter is incremented (from 0 to 1 here). -/
theorem C7_counterexample :
    onMessageReceived tfShift sampleAppConfig 5 7 s0 "tags/A1" (Json.arr []) =
      ({ s0 with total_messages := 1, malformed_messages := 1 }, none) := by
  rfl

/-- C7, amended: an empty JSON array payload bypasses the array path, is
treated as a malformed single-object message (malformed counter
incremented by one), and nothing is published for it (no publish task is
scheduled and the failed counter is untouched). -/
theorem C7_empty_array_malformed (tf : ℚ → ℚ → ℚ × ℚ) (cfg : AppConfig) (now dt : ℕ)
    (s : BridgeState) (topic : String) (hr : s.running = true)
    (hs : s.shutdown_requested = false) :
    onMessageReceived tf cfg now dt s topic (Json.arr []) =
      ({ s with total_messages := s.total_messages + 1,
                malformed_messages := s.malformed_messages + 1 }, none) := by
  simp [onMessageReceived, hr, hs, Json.isArray, Json.isEmptyArr, parseMessage,
    parseCoordinates, Json.findObj, Json.find, Json.contains, lookupField]

/-- Witness for C7 at the zeroed running state. -/
theorem C7_empty_array_malformed_witness :
    onMessageReceived tfShift sampleAppConfig 5 7 s0 "tags/A1" (Json.arr []) =
      ({ s0 with total_messages := s0.total_messages + 1,
                 malformed_messages := s0.malformed_messages + 1 }, none) :=
  C7_empty_array_malformed tfShift sampleAppConfig 5 7 s0 "tags/A1" rfl rfl

/-- C8: `stop` on a running bridge raises the shutdown flag; once the flag
is set, the ingestion path no-ops on any inbound message (no state change,
no publish scheduled), and a scheduled publish task checks the flag and
performs no publish call. -/
theorem C8_no_publish_after_stop :
    (∀ s : BridgeState, s.running = true →
        (stop s).shutdown_requested = true ∧ (stop s).running = false) ∧
      (∀ (tf : ℚ → ℚ → ℚ × ℚ) (cfg : AppConfig) (now dt : ℕ) (s : BridgeState)
          (topic : String) (j : Json), s.shutdown_requested = true →
          onMessageReceived tf cfg now dt s topic j = (s, none)) ∧
      (∀ (s : BridgeState) (publish_ok : Bool) (t : PublishTask),
          s.shutdown_requested = true → runPublishTask s publish_ok t = (s, none)) := by
  refine ⟨fun s hr => ?_, fun tf cfg now dt s topic j hs => ?_, fun s ok t hs => ?_⟩
  · simp [stop, hr]
  · simp [onMessageReceived, hs]
  · simp [runPublishTask, hs]

/-- Witness for C8 on the stopped zeroed state. -/
theorem C8_no_publish_after_stop_witness :
    ((stop s0).shutdown_requested = true ∧ (stop s0).running = false) ∧
      onMessageReceived tfShift sampleAppConfig 1 2 (stop s0) "tags/A1" (Json.num 3) =
        (stop s0, none) ∧
      runPublishTask (stop s0) true ⟨"processed/A1", Json.num 3⟩ = (stop s0, none) :=
  ⟨C8_no_publish_after_stop.1 s0 rfl,
    C8_no_publish_after_stop.2.1 tfShift sampleAppConfig 1 2 (stop s0) "tags/A1"
      (Json.num 3) rfl,
    C8_no_publish_after_stop.2.2 (stop s0) true ⟨"processed/A1", Json.num 3⟩ rfl⟩

/-- C9: the snapshot's average processing time is the cumulative
processing microseconds divided by the successful-transform count at
snapshot time (exactly: average times count gives back the cumulative
time), and it is exactly 0 when the successful count is 0. -/
theorem C9_avg_processing_time (s : BridgeState) :
    (s.successful_transforms = 0 → (getStats s).avg_processing_time_us = 0) ∧
      (s.successful_transforms ≠ 0 →
        (getStats s).avg_processing_time_us =
            (s.total_processing_time_us : ℚ) / (s.successful_transforms : ℚ) ∧
          (getStats s).avg_processing_time_us * (s.successful_transforms : ℚ) =
            (s.total_processing_time_us : ℚ)) := by
  constructor
  · intro h
    simp [getStats, h]
  · intro h
    have hpos : 0 < s.successful_transforms := Nat.pos_of_ne_zero h
    have hne : (s.successful_transforms : ℚ) ≠ 0 := Nat.cast_ne_zero.mpr h
    constructor
    · simp [getStats, hpos]
    · simp only [getStats, if_pos hpos]
      exact div_mul_cancel₀ _ hne

/-- Witness for C9 at a state with zero successes and a state with two
successes over 10 microseconds. -/
theorem C9_avg_processing_time_witness :
    (getStats s0).avg_processing_time_us = 0 ∧
      ((getStats sC9).avg_processing_time_us =
          (sC9.total_processing_time_us : ℚ) / (sC9.successful_transforms : ℚ) ∧
        (getStats sC9).avg_processing_time_us * (sC9.successful_transforms : ℚ) =
          (sC9.total_processing_time_us : ℚ)) :=
  ⟨(C9_avg_processing_time s0).1 rfl, (C9_avg_processing_time sC9).2 (by decide)⟩

end uwb_bridge

namespace uwb_bridge

/-- C4: single-object coordinate extraction probes exactly the fixed
priority order `data.coordinates`, `coordinates`, flat `{x,y}`, flat
`{posX,posY}`, `position` with the first matching shape winning and `z`
defaulting to 0 (the equality with the spec-side ordered matcher list),
and a message that fails normalization is counted malformed, dropped, and
schedules no publish. -/
theorem C4_shape_priority :
    (∀ j : Json, parseCoordinates j = normalizeCoordinates j) ∧
      (∀ (tf : ℚ → ℚ → ℚ × ℚ) (cfg : AppConfig) (now dt : ℕ) (s : BridgeState)
          (topic : String) (j : Json),
          s.running = true → s.shutdown_requested = false →
          ¬ (j.isArray ∧ ¬ j.isEmptyArr) → parseMessage j = none →
          onMessageReceived tf cfg now dt s topic j =
            ({ s with total_messages := s.total_messages + 1,
                      malformed_messages := s.malformed_messages + 1 }, none)) := by
  constructor
  · intro j
    unfold parseCoordinates normalizeCoordinates shapeMatchers
    simp only [firstShape, matchDataCoordinates, matchCoordinates, matchFlatXYZ, matchFlatPos,
      matchPosition]
    cases hA : (j.findObj "data").bind (fun d => d.findObj "coordinates") with
    | some c => simp [hA, extractXYZ]
    | none =>
      simp only [hA, Option.map_none']
      cases hB : j.findObj "coordinates" with
      | some c => simp [hB, extractXYZ]
      | none =>
        simp only [hB, Option.map_none']
        by_cases hx : j.contains "x" ∧ j.contains "y"
        · simp [hx, extractXYZ]
        · rw [if_neg hx, if_neg hx]
          by_cases hp : j.contains "posX" ∧ j.contains "posY"
          · simp [hp, extractXYZ]
          · rw [if_neg hp, if_neg hp]
            cases hpos : j.find "position" with
            | some p =>
              have : j.contains "position" = true := by
                simp [Json.contains, hpos]
              simp [this, hpos, extractXYZ]
            | none =>
              have : j.contains "position" = false := by
                simp [Json.contains, hpos]
              simp [this, hpos]
  · intro tf cfg now dt s topic j hr hs harr hparse
    unfold onMessageReceived
    rw [if_neg (by simp [hr, hs])]
    rw [if_neg harr]
    simp [hparse, hr, hs]

/-- Witness for C4 on a payload with no recognized coordinate shape. -/
theorem C4_shape_priority_witness :
    parseMessage (Json.obj [("foo", Json.num 1)]) = none ∧
      onMessageReceived tfShift sampleAppConfig 5 7 s0 "tags/A1"
          (Json.obj [("foo", Json.num 1)]) =
        ({ s0 with total_messages := s0.total_messages + 1,
                   malformed_messages := s0.malformed_messages + 1 }, none) :=
  ⟨rfl,
    C4_shape_priority.2 tfShift sampleAppConfig 5 7 s0 "tags/A1"
      (Json.obj [("foo", Json.num 1)]) rfl rfl (by decide) rfl⟩

end uwb_bridge

namespace uwb_bridge

lemma processArrayElement_skip (tf : ℚ → ℚ → ℚ × ℚ) (tcfg : TransformConfig) (now : ℕ)
    (el : Json) (h : hasDataCoordsObj el = false) :
    processArrayElement tf tcfg now el = some el := by
  cases el with
  | null => rfl
  | bool b => rfl
  | num q => rfl
  | str s => rfl
  | arr xs => rfl
  | obj objFields =>
    simp only [hasDataCoordsObj] at h
    simp only [processArrayElement]
    cases hd : lookupField objFields "data" with
    | none => rfl
    | some v =>
      rw [hd] at h
      cases v with
      | null => rfl
      | bool b => rfl
      | num q => rfl
      | str s => rfl
      | arr xs => rfl
      | obj dataFields =>
        dsimp only at h ⊢
        cases hc : lookupField dataFields "coordinates" with
        | none => rfl
        | some w =>
          rw [hc] at h
          cases w with
          | null => rfl
          | bool b => rfl
          | num q => rfl
          | str s => rfl
          | arr xs => rfl
          | obj coordFields => exact absurd h (by simp)

lemma processAndModifyMessageArray_eq (tf : ℚ → ℚ → ℚ × ℚ) (tcfg : TransformConfig)
    (now : ℕ) (l : List Json) (h : l ≠ []) :
    processAndModifyMessageArray tf tcfg now (Json.arr l) =
      (l.mapM (processArrayElement tf tcfg now)).map Json.arr := by
  cases l with
  | nil => exact absurd rfl h
  | cons a as => rfl

lemma mapM_processArrayElement_skip (tf : ℚ → ℚ → ℚ × ℚ) (tcfg : TransformConfig)
    (now : ℕ) (xs : List Json) (h : ∀ el ∈ xs, hasDataCoordsObj el = false) :
    xs.mapM (processArrayElement tf tcfg now) = some xs := by
  induction xs with
  | nil => rfl
  | cons a as ih =>
    rw [List.mapM_cons, processArrayElement_skip tf tcfg now a (h a (by simp)),
      ih (fun el hel => h el (by simp [hel]))]
    rfl

/-- C5, counterexample: a flat `{x, y, tagId}` element is an accepted
single-object shape (normalization succeeds on it), but inside a
top-level array it is not processed: array processing returns the array
with the element completely unchanged (no transformed coordinates, no
added metadata). -/
theorem C5_counterexample :
    parseMessage flatTagEl = some ⟨1, 2, 0, "A1"⟩ ∧
      processAndModifyMessageArray tfShift sampleTransformCfg 5 (Json.arr [flatTagEl]) =
        some (Json.arr [flatTagEl]) :=
  ⟨rfl, rfl⟩

/-- C5, amended: in a top-level array only elements with the nested
`data.coordinates` object shape are transformed; an element of any other
shape (even an otherwise-accepted one) is skipped and passed through
unchanged while the remaining elements are still transformed; and the
array path never increments the malformed counter (so it increments by at
most the number of irrecoverable elements, never the whole batch). -/
theorem C5_array_partial_processing :
    (∀ (tf : ℚ → ℚ → ℚ × ℚ) (tcfg : TransformConfig) (now : ℕ)
        (xs zs yxs yzs : List Json) (e : Json),
        hasDataCoordsObj e = false →
        xs.mapM (processArrayElement tf tcfg now) = some yxs →
        zs.mapM (processArrayElement tf tcfg now) = some yzs →
        processAndModifyMessageArray tf tcfg now (Json.arr (xs ++ e :: zs)) =
          some (Json.arr (yxs ++ e :: yzs))) ∧
      (∀ (tf : ℚ → ℚ → ℚ × ℚ) (cfg : AppConfig) (now dt : ℕ) (s : BridgeState)
          (topic : String) (j : Json), j.isArray = true → j.isEmptyArr = false →
          ((onMessageReceived tf cfg now dt s topic j).1).malformed_messages =
            s.malformed_messages) := by
  constructor
  · intro tf tcfg now xs zs yxs yzs e he hx hz
    rw [processAndModifyMessageArray_eq tf tcfg now _ (by simp), List.mapM_append, hx,
      List.mapM_cons, processArrayElement_skip tf tcfg now e he, hz]
    rfl
  · intro tf cfg now dt s topic j ha he
    unfold onMessageReceived
    by_cases hrun : ¬ s.running ∨ s.shutdown_requested
    · rw [if_pos hrun]
    · rw [if_neg hrun, if_pos ⟨ha, by simp [he]⟩]
      cases hout : processAndModifyMessageArray tf cfg.transform now j with
      | none => rfl
      | some out => rfl

/-- Witness for C5: the spec's three-element scenario — a batch with one
element missing its `coordinates` key yields exactly the two transformed
records with the offending element passed through. -/
theorem C5_array_partial_processing_witness :
    hasDataCoordsObj arrEl2 = false ∧
      [arrEl1].mapM (processArrayElement tfSwap mmTransformCfg 5) = some [arrEl1t] ∧
      [arrEl3].mapM (processArrayElement tfSwap mmTransformCfg 5) = some [arrEl3t] ∧
      processAndModifyMessageArray tfSwap mmTransformCfg 5
          (Json.arr ([arrEl1] ++ arrEl2 :: [arrEl3])) =
        some (Json.arr ([arrEl1t] ++ arrEl2 :: [arrEl3t])) :=
  ⟨rfl, rfl, rfl,
    C5_array_partial_processing.1 tfSwap mmTransformCfg 5 [arrEl1] [arrEl3] [arrEl1t]
      [arrEl3t] arrEl2 rfl rfl rfl⟩

/-- C10, counterexample: a non-empty array payload that parses as JSON can
still yield the failure sentinel (the empty string, modelled `none`): an
element whose `data.coordinates` object lacks `x` makes coordinate
extraction throw, so the sentinel is not returned only when parsing
throws. -/
theorem C10_counterexample :
    (Json.arr [badArrEl]).isArray = true ∧ (Json.arr [badArrEl]).isEmptyArr = false ∧
      processAndModifyMessageArray tfShift sampleTransformCfg 5 (Json.arr [badArrEl]) =
        none :=
  ⟨rfl, rfl, rfl⟩

/-- C10, amended: a non-empty array whose recognized-shape elements
extract cleanly returns a serialized array (in particular an array all of
whose elements are skipped returns the array unchanged); such an array is
still published to the collective `tags` topic, counted as a successful
transform when the publish succeeds, and leaves the malformed counter
unchanged; but the failure sentinel is also produced when element
extraction throws, in which case the failed counter is incremented and
nothing is published. -/
theorem C10_array_passthrough :
    (∀ (tf : ℚ → ℚ → ℚ × ℚ) (tcfg : TransformConfig) (now : ℕ) (xs : List Json),
        xs ≠ [] → (∀ el ∈ xs, hasDataCoordsObj el = false) →
        processAndModifyMessageArray tf tcfg now (Json.arr xs) = some (Json.arr xs)) ∧
      (∀ (tf : ℚ → ℚ → ℚ × ℚ) (cfg : AppConfig) (now dt : ℕ) (s : BridgeState)
          (topic : String) (xs : List Json),
          s.running = true → s.shutdown_requested = false → xs ≠ [] →
          (∀ el ∈ xs, hasDataCoordsObj el = false) →
          onMessageReceived tf cfg now dt s topic (Json.arr xs) =
            ({ s with total_messages := s.total_messages + 1,
                      total_processing_time_us := s.total_processing_time_us + dt },
              some ⟨cfg.mqtt.dest_broker.dest_topic_pfx ++ "tags", Json.arr xs⟩)) ∧
      (∀ (s : BridgeState) (t : PublishTask), s.shutdown_requested = false →
          runPublishTask s true t =
            ({ s with successful_transforms := s.successful_transforms + 1 }, some t)) ∧
      (∀ (tf : ℚ → ℚ → ℚ × ℚ) (cfg : AppConfig) (now dt : ℕ) (s : BridgeState)
          (topic : String) (j : Json),
          s.running = true → s.shutdown_requested = false →
          j.isArray = true → j.isEmptyArr = false →
          processAndModifyMessageArray tf cfg.transform now j = none →
          onMessageReceived tf cfg now dt s topic j =
            ({ s with total_messages := s.total_messages + 1,
                      failed_transforms := s.failed_transforms + 1 }, none)) := by
  have harr : ∀ (tf : ℚ → ℚ → ℚ × ℚ) (tcfg : TransformConfig) (now : ℕ) (xs : List Json),
      xs ≠ [] → (∀ el ∈ xs, hasDataCoordsObj el = false) →
      processAndModifyMessageArray tf tcfg now (Json.arr xs) = some (Json.arr xs) := by
    intro tf tcfg now xs hne hall
    rw [processAndModifyMessageArray_eq tf tcfg now xs hne,
      mapM_processArrayElement_skip tf tcfg now xs hall]
    rfl
  refine ⟨harr, fun tf cfg now dt s topic xs hr hs hne hall => ?_,
    fun s t hs => by simp [runPublishTask, hs],
    fun tf cfg now dt s topic j hr hs ha he hout => ?_⟩
  · unfold onMessageReceived
    rw [if_neg (by simp [hr, hs]),
      if_pos ⟨by cases xs with | nil => exact absurd rfl hne | cons a as => rfl,
        by cases xs with | nil => exact absurd rfl hne | cons a as => simp [Json.isEmptyArr]⟩,
      harr tf cfg.transform now xs hne hall]
  · unfold onMessageReceived
    rw [if_neg (by simp [hr, hs]), if_pos ⟨ha, by simp [he]⟩, hout]

/-- Witness for C10: a singleton array whose element has no recognized
shape passes through, is scheduled for publication on the collective
topic, and a successful publish bumps the successful counter. -/
theorem C10_array_passthrough_witness :
    processAndModifyMessageArray tfShift sampleTransformCfg 5 (Json.arr [arrEl2]) =
        some (Json.arr [arrEl2]) ∧
      onMessageReceived tfShift sampleAppConfig 5 7 s0 "tags/A2" (Json.arr [arrEl2]) =
        ({ s0 with total_messages := s0.total_messages + 1,
                   total_processing_time_us := s0.total_processing_time_us + 7 },
          some ⟨sampleAppConfig.mqtt.dest_broker.dest_topic_pfx ++ "tags",
            Json.arr [arrEl2]⟩) ∧
      runPublishTask s0 true ⟨"processed/tags", Json.arr [arrEl2]⟩ =
        ({ s0 with successful_transforms := s0.successful_transforms + 1 },
          some ⟨"processed/tags", Json.arr [arrEl2]⟩) ∧
      onMessageReceived tfShift sampleAppConfig 5 7 s0 "tags/A2" (Json.arr [badArrEl]) =
        ({ s0 with total_messages := s0.total_messages + 1,
                   failed_transforms := s0.failed_transforms + 1 }, none) :=
  ⟨C10_array_passthrough.1 tfShift sampleTransformCfg 5 [arrEl2] (by simp)
      (by intro el hel; simp at hel; rw [hel]; rfl),
    C10_array_passthrough.2.1 tfShift sampleAppConfig 5 7 s0 "tags/A2" [arrEl2] rfl rfl
      (by simp) (by intro el hel; simp at hel; rw [hel]; rfl),
    C10_array_passthrough.2.2.1 s0 ⟨"processed/tags", Json.arr [arrEl2]⟩ rfl,
    C10_array_passthrough.2.2.2 tfShift sampleAppConfig 5 7 s0 "tags/A2"
      (Json.arr [badArrEl]) rfl rfl rfl rfl rfl⟩

end uwb_bridge

namespace uwb_bridge

lemma lookupField_setField_self (fs : List (String × Json)) (key : String) (v : Json) :
    lookupField (setField fs key v) key = some v := by
  induction fs with
  | nil => simp [setField, lookupField]
  | cons p rest ih =>
    obtain ⟨k, w⟩ := p
    simp only [setField]
    by_cases h : k = key
    · simp [h, lookupField]
    · simp [h, lookupField, ih]

lemma lookupField_setField_ne (fs : List (String × Json)) (key k' : String) (v : Json)
    (h : k' ≠ key) : lookupField (setField fs key v) k' = lookupField fs k' := by
  induction fs with
  | nil => simp [setField, lookupField, Ne.symm h]
  | cons p rest ih =>
    obtain ⟨k, w⟩ := p
    simp only [setField]
    by_cases hk : k = key
    · subst hk
      simp [lookupField, Ne.symm h, fun hh : k = k' => h (hh.symm)]
    · simp only [if_neg hk, lookupField]
      by_cases hk' : k = k'
      · simp [hk']
      · simp [hk', ih]

lemma lookupField_eraseField_ne (fs : List (String × Json)) (key k' : String)
    (h : k' ≠ key) : lookupField (eraseField fs key) k' = lookupField fs k' := by
  induction fs with
  | nil => rfl
  | cons p rest ih =>
    obtain ⟨k, w⟩ := p
    simp only [eraseField]
    by_cases hk : k = key
    · subst hk
      simp only [if_pos rfl, lookupField]
      exact (if_neg (fun hh : k = k' => h hh.symm)).symm
    · simp only [if_neg hk, lookupField]
      by_cases hk' : k = k'
      · simp [hk']
      · simp [hk', ih]

lemma lookupField_eq_none_of_not_mem (fs : List (String × Json)) (key : String)
    (h : key ∉ fs.map Prod.fst) : lookupField fs key = none := by
  induction fs with
  | nil => rfl
  | cons p rest ih =>
    obtain ⟨k, w⟩ := p
    simp only [List.map_cons, List.mem_cons] at h
    push_neg at h
    simp only [lookupField]
    rw [if_neg (fun hh : k = key => h.1 hh.symm)]
    exact ih h.2

lemma lookupField_eraseField_self (fs : List (String × Json)) (key : String)
    (hnodup : (fs.map Prod.fst).Nodup) : lookupField (eraseField fs key) key = none := by
  induction fs with
  | nil => rfl
  | cons p rest ih =>
    obtain ⟨k, w⟩ := p
    simp only [List.map_cons, List.nodup_cons] at hnodup
    simp only [eraseField]
    by_cases hk : k = key
    · subst hk
      rw [if_pos rfl]
      exact lookupField_eq_none_of_not_mem rest k hnodup.1
    · rw [if_neg hk]
      simp only [lookupField]
      rw [if_neg hk]
      exact ih hnodup.2

lemma mem_keys_setField (fs : List (String × Json)) (key k'' : String) (v : Json)
    (h : k'' ∈ (setField fs key v).map Prod.fst) : k'' = key ∨ k'' ∈ fs.map Prod.fst := by
  induction fs with
  | nil => simp [setField] at h; exact Or.inl h
  | cons p rest ih =>
    obtain ⟨k, w⟩ := p
    simp only [setField] at h
    by_cases hk : k = key
    · simp only [if_pos hk, List.map_cons, List.mem_cons] at h
      rcases h with h | h
      · exact Or.inl h
      · exact Or.inr (by simp [h])
    · simp only [if_neg hk, List.map_cons, List.mem_cons] at h
      rcases h with h | h
      · exact Or.inr (by simp [h])
      · rcases ih h with h' | h'
        · exact Or.inl h'
        · exact Or.inr (by simp [h'])

lemma nodup_keys_setField (fs : List (String × Json)) (key : String) (v : Json)
    (h : (fs.map Prod.fst).Nodup) : ((setField fs key v).map Prod.fst).Nodup := by
  induction fs with
  | nil => simp [setField]
  | cons p rest ih =>
    obtain ⟨k, w⟩ := p
    simp only [List.map_cons, List.nodup_cons] at h
    simp only [setField]
    by_cases hk : k = key
    · subst hk
      rw [if_pos rfl]
      simp only [List.map_cons, List.nodup_cons]
      exact ⟨h.1, h.2⟩
    · simp only [if_neg hk, List.map_cons, List.nodup_cons]
      refine ⟨fun hmem => ?_, ih h.2⟩
      rcases mem_keys_setField rest key k v hmem with h' | h'
      · exact hk h'
      · exact h.1 h'

lemma lookup_rwData_coordinates (tcfg : TransformConfig) (now : ℕ)
    (dataFields coordFields : List (String × Json)) (tx ty tz : ℚ) :
    lookupField (rwData tcfg now dataFields coordFields tx ty tz) "coordinates" =
      some (Json.obj (rwCoords tcfg now coordFields tx ty tz)) := by
  unfold rwData
  by_cases h :
      (lookupField
        (setField dataFields "coordinates" (Json.obj (rwCoords tcfg now coordFields tx ty tz)))
        "anchorData").isSome
  · rw [if_pos h, lookupField_eraseField_ne _ _ _ (by decide), lookupField_setField_self]
  · rw [if_neg h, lookupField_setField_self]

lemma lookup_rwData_anchorData (tcfg : TransformConfig) (now : ℕ)
    (dataFields coordFields : List (String × Json)) (tx ty tz : ℚ)
    (hnodup : (dataFields.map Prod.fst).Nodup) :
    lookupField (rwData tcfg now dataFields coordFields tx ty tz) "anchorData" = none := by
  unfold rwData
  have hnodup2 :=
    nodup_keys_setField dataFields "coordinates"
      (Json.obj (rwCoords tcfg now coordFields tx ty tz)) hnodup
  by_cases h :
      (lookupField
        (setField dataFields "coordinates" (Json.obj (rwCoords tcfg now coordFields tx ty tz)))
        "anchorData").isSome
  · rw [if_pos h]
    exact lookupField_eraseField_self _ _ hnodup2
  · rw [if_neg h]
    exact Option.not_isSome_iff_eq_none.mp h

lemma lookup_rwData_ne (tcfg : TransformConfig) (now : ℕ)
    (dataFields coordFields : List (String × Json)) (tx ty tz : ℚ) (k : String)
    (h1 : k ≠ "coordinates") (h2 : k ≠ "anchorData") :
    lookupField (rwData tcfg now dataFields coordFields tx ty tz) k =
      lookupField dataFields k := by
  unfold rwData
  by_cases h :
      (lookupField
        (setField dataFields "coordinates" (Json.obj (rwCoords tcfg now coordFields tx ty tz)))
        "anchorData").isSome
  · rw [if_pos h, lookupField_eraseField_ne _ _ _ h2, lookupField_setField_ne _ _ _ _ h1]
  · rw [if_neg h, lookupField_setField_ne _ _ _ _ h1]

lemma lookup_rwCoords (tcfg : TransformConfig) (now : ℕ)
    (coordFields : List (String × Json)) (tx ty tz : ℚ) :
    lookupField (rwCoords tcfg now coordFields tx ty tz) "x" = some (Json.num tx) ∧
      lookupField (rwCoords tcfg now coordFields tx ty tz) "y" = some (Json.num ty) ∧
      lookupField (rwCoords tcfg now coordFields tx ty tz) "z" = some (Json.num tz) ∧
      lookupField (rwCoords tcfg now coordFields tx ty tz) "frame_id" =
        some (Json.str tcfg.frame_id) ∧
      lookupField (rwCoords tcfg now coordFields tx ty tz) "processing_timestamp" =
        some (Json.num now) ∧
      lookupField (rwCoords tcfg now coordFields tx ty tz) "units" =
        some (Json.str tcfg.output_units) ∧
      ∀ k, k ∉ (["x", "y", "z", "frame_id", "processing_timestamp", "units"] : List String) →
        lookupField (rwCoords tcfg now coordFields tx ty tz) k = lookupField coordFields k := by
  unfold rwCoords
  refine ⟨?_, ?_, ?_, ?_, ?_, ?_, ?_⟩
  · rw [lookupField_setField_ne _ _ _ _ (by decide), lookupField_setField_ne _ _ _ _ (by decide),
      lookupField_setField_ne _ _ _ _ (by decide), lookupField_setField_ne _ _ _ _ (by decide),
      lookupField_setField_ne _ _ _ _ (by decide), lookupField_setField_self]
  · rw [lookupField_setField_ne _ _ _ _ (by decide), lookupField_setField_ne _ _ _ _ (by decide),
      lookupField_setField_ne _ _ _ _ (by decide), lookupField_setField_ne _ _ _ _ (by decide),
      lookupField_setField_self]
  · rw [lookupField_setField_ne _ _ _ _ (by decide), lookupField_setField_ne _ _ _ _ (by decide),
      lookupField_setField_ne _ _ _ _ (by decide), lookupField_setField_self]
  · rw [lookupField_setField_ne _ _ _ _ (by decide), lookupField_setField_ne _ _ _ _ (by decide),
      lookupField_setField_self]
  · rw [lookupField_setField_ne _ _ _ _ (by decide), lookupField_setField_self]
  · rw [lookupField_setField_self]
  · intro k hk
    simp only [List.mem_cons, List.mem_singleton, not_or] at hk
    obtain ⟨hx, hy, hz, hf, hp, hu⟩ := hk
    rw [lookupField_setField_ne _ _ _ _ (by simpa using hu),
      lookupField_setField_ne _ _ _ _ (by simpa using hp),
      lookupField_setField_ne _ _ _ _ (by simpa using hf),
      lookupField_setField_ne _ _ _ _ (by simpa using hz),
      lookupField_setField_ne _ _ _ _ (by simpa using hy),
      lookupField_setField_ne _ _ _ _ (by simpa using hx)]

end uwb_bridge

namespace uwb_bridge

lemma processAndModifyMessage_nested (tcfg : TransformConfig) (now : ℕ)
    (objFields dataFields coordFields : List (String × Json)) (tx ty tz : ℚ)
    (hd : lookupField objFields "data" = some (Json.obj dataFields))
    (hc : lookupField dataFields "coordinates" = some (Json.obj coordFields)) :
    processAndModifyMessage tcfg now (Json.obj objFields) tx ty tz =
      Json.obj
        (setField objFields "data"
          (Json.obj (rwData tcfg now dataFields coordFields tx ty tz))) := by
  simp only [processAndModifyMessage]
  rw [hd]
  dsimp only
  rw [hc]
  rfl

/-- C6, counterexample: a payload in the accepted `coordinates.{x,y}`
shape is recognized by normalization, yet composition does not write the
transformed coordinates back at that location nor preserve other fields —
the output is the minimal flat fallback, which drops both `extra` and the
`coordinates` group. -/
theorem C6_counterexample :
    parseMessage coordShapeEl = some ⟨1, 2, 0, ""⟩ ∧
      (processAndModifyMessage sampleTransformCfg 5 coordShapeEl 10 20 30).find "extra" =
        none ∧
      (processAndModifyMessage sampleTransformCfg 5 coordShapeEl 10 20 30).find
          "coordinates" =
        none :=
  ⟨rfl, rfl, rfl⟩

/-- C6, amended: only for payloads in the nested `data.coordinates` object
shape does composition rewrite in place: the transformed `x`, `y`, `z`
(plus `frame_id`, `processing_timestamp`, `units`) are written at the
exact nested location, every other field at every level is preserved, and
`anchorData` beside the coordinates is removed; payloads of any other
recognized shape fall back to the minimal flat document instead. -/
theorem C6_inplace_rewrite (tcfg : TransformConfig) (now : ℕ)
    (objFields dataFields coordFields : List (String × Json)) (tx ty tz : ℚ)
    (hd : lookupField objFields "data" = some (Json.obj dataFields))
    (hc : lookupField dataFields "coordinates" = some (Json.obj coordFields))
    (hnodup : (dataFields.map Prod.fst).Nodup) :
    (∀ k, k ≠ "data" →
        (processAndModifyMessage tcfg now (Json.obj objFields) tx ty tz).find k =
          lookupField objFields k) ∧
      findPath (processAndModifyMessage tcfg now (Json.obj objFields) tx ty tz)
          ["data", "coordinates", "x"] = some (Json.num tx) ∧
      findPath (processAndModifyMessage tcfg now (Json.obj objFields) tx ty tz)
          ["data", "coordinates", "y"] = some (Json.num ty) ∧
      findPath (processAndModifyMessage tcfg now (Json.obj objFields) tx ty tz)
          ["data", "coordinates", "z"] = some (Json.num tz) ∧
      findPath (processAndModifyMessage tcfg now (Json.obj objFields) tx ty tz)
          ["data", "coordinates", "frame_id"] = some (Json.str tcfg.frame_id) ∧
      findPath (processAndModifyMessage tcfg now (Json.obj objFields) tx ty tz)
          ["data", "coordinates", "processing_timestamp"] = some (Json.num now) ∧
      findPath (processAndModifyMessage tcfg now (Json.obj objFields) tx ty tz)
          ["data", "coordinates", "units"] = some (Json.str tcfg.output_units) ∧
      (∀ k, k ∉ (["x", "y", "z", "frame_id", "processing_timestamp", "units"] : List String) →
        findPath (processAndModifyMessage tcfg now (Json.obj objFields) tx ty tz)
            ["data", "coordinates", k] = lookupField coordFields k) ∧
      (∀ k, k ≠ "coordinates" → k ≠ "anchorData" →
        findPath (processAndModifyMessage tcfg now (Json.obj objFields) tx ty tz)
            ["data", k] = lookupField dataFields k) ∧
      findPath (processAndModifyMessage tcfg now (Json.obj objFields) tx ty tz)
          ["data", "anchorData"] = none := by
  rw [processAndModifyMessage_nested tcfg now objFields dataFields coordFields tx ty tz hd hc]
  obtain ⟨hx, hy, hz, hf, hp, hu, hrest⟩ := lookup_rwCoords tcfg now coordFields tx ty tz
  refine ⟨fun k hk => ?_, ?_, ?_, ?_, ?_, ?_, ?_, fun k hk => ?_, fun k hk1 hk2 => ?_, ?_⟩
  · simp only [Json.find]
    exact lookupField_setField_ne _ _ _ _ hk
  · simp [findPath, Json.find, lookupField_setField_self, lookup_rwData_coordinates, hx]
  · simp [findPath, Json.find, lookupField_setField_self, lookup_rwData_coordinates, hy]
  · simp [findPath, Json.find, lookupField_setField_self, lookup_rwData_coordinates, hz]
  · simp [findPath, Json.find, lookupField_setField_self, lookup_rwData_coordinates, hf]
  · simp [findPath, Json.find, lookupField_setField_self, lookup_rwData_coordinates, hp]
  · simp [findPath, Json.find, lookupField_setField_self, lookup_rwData_coordinates, hu]
  · simp [findPath, Json.find, lookupField_setField_self, lookup_rwData_coordinates, hrest k hk]
  · simp [findPath, Json.find, lookupField_setField_self,
      lookup_rwData_ne tcfg now dataFields coordFields tx ty tz k hk1 hk2]
  · simp [findPath, Json.find, lookupField_setField_self,
      lookup_rwData_anchorData tcfg now dataFields coordFields tx ty tz hnodup]

end uwb_bridge

namespace uwb_bridge

/-- Witness for C6 on a concrete nested payload with an `anchorData` field
and extra keys at every level. -/
theorem C6_inplace_rewrite_witness :
    (∀ k, k ≠ "data" →
        (processAndModifyMessage sampleTransformCfg 5 (Json.obj nestedObjFields) 10 20 30).find
            k =
          lookupField nestedObjFields k) ∧
      findPath (processAndModifyMessage sampleTransformCfg 5 (Json.obj nestedObjFields) 10 20 30)
          ["data", "coordinates", "x"] = some (Json.num 10) ∧
      findPath (processAndModifyMessage sampleTransformCfg 5 (Json.obj nestedObjFields) 10 20 30)
          ["data", "coordinates", "y"] = some (Json.num 20) ∧
      findPath (processAndModifyMessage sampleTransformCfg 5 (Json.obj nestedObjFields) 10 20 30)
          ["data", "coordinates", "z"] = some (Json.num 30) ∧
      findPath (processAndModifyMessage sampleTransformCfg 5 (Json.obj nestedObjFields) 10 20 30)
          ["data", "coordinates", "frame_id"] = some (Json.str sampleTransformCfg.frame_id) ∧
      findPath (processAndModifyMessage sampleTransformCfg 5 (Json.obj nestedObjFields) 10 20 30)
          ["data", "coordinates", "processing_timestamp"] = some (Json.num ((5 : ℕ) : ℚ)) ∧
      findPath (processAndModifyMessage sampleTransformCfg 5 (Json.obj nestedObjFields) 10 20 30)
          ["data", "coordinates", "units"] = some (Json.str sampleTransformCfg.output_units) ∧
      (∀ k, k ∉ (["x", "y", "z", "frame_id", "processing_timestamp", "units"] : List String) →
        findPath (processAndModifyMessage sampleTransformCfg 5 (Json.obj nestedObjFields) 10 20
              30)
            ["data", "coordinates", k] = lookupField nestedCoordFields k) ∧
      (∀ k, k ≠ "coordinates" → k ≠ "anchorData" →
        findPath (processAndModifyMessage sampleTransformCfg 5 (Json.obj nestedObjFields) 10 20
              30)
            ["data", k] = lookupField nestedDataFields k) ∧
      findPath (processAndModifyMessage sampleTransformCfg 5 (Json.obj nestedObjFields) 10 20 30)
          ["data", "anchorData"] = none :=
  C6_inplace_rewrite sampleTransformCfg 5 nestedObjFields nestedDataFields nestedCoordFields
    10 20 30 rfl rfl (by decide)

end uwb_bridge
